import Mathlib

/-!
# Verification of the ESP32 hand-gesture control loop (`src/gesture.py`)

Shallow embedding of the gesture-to-command control loop:
* the stability filter `get_stable_gesture` (debouncing over a `deque(maxlen=3)`),
* the finger-state classifier `detect_finger_states`,
* the orchestrator `process_gestures` (edge-triggered command dispatch),
* the connection health monitor `check_esp32_connection`,
* the retry loop inside `send_command`.

Python floats (timestamps, normalized landmark coordinates) are modelled as
rationals; Python `None` becomes `Option.none`; the mutable module-level
dictionaries (`prev_states`, `gesture_buffer`, `esp32_connected`) become an
explicit state record threaded through the functions; network effects become
explicit inputs (probe/attempt outcomes) and outputs (dispatched endpoint
strings, log events).
-/

/-- The five finger identifiers used as keys of `prev_states` / `gesture_buffer`. -/
inductive Finger
  | thumb
  | index
  | middle
  | ring
  | pinky
deriving DecidableEq

/-- `deque(maxlen=3).append`: append the new value, evicting the oldest
entries so that at most 3 remain. -/
def dequeAppend3 (buf : List Bool) (b : Bool) : List Bool :=
  let l := buf ++ [b]
  if 3 < l.length then l.drop (l.length - 3) else l

/-- `get_stable_gesture(finger, current_state)` from `src/gesture.py`.

The Python function mutates `gesture_buffer[finger]` (appending
`current_state`) and returns the stable value; here it takes the finger's
buffer and the finger's entry of `prev_states` explicitly, and returns the
new buffer together with the returned stable value.  `all(buffer)` is the
all-true test, `not any(buffer)` the all-false test, and `buffer[-1]` the
last element (which is the value just appended). -/
def get_stable_gesture (buf : List Bool) (prev : Option Bool) (current_state : Bool) :
    List Bool × Option Bool :=
  let buf2 := dequeAppend3 buf current_state
  if buf2.length = 3 then
    if buf2.all (fun b => b) || buf2.all (fun b => !b) then
      (buf2, some (buf2.getLastD current_state))
    else
      (buf2, prev)
  else
    (buf2, prev)

/-- A debounce window that is full (3 entries) and unanimous. -/
def fullUnanimous (buf : List Bool) : Prop :=
  buf.length = 3 ∧ (buf.all (fun b => b) ∨ buf.all (fun b => !b))

instance (buf : List Bool) : Decidable (fullUnanimous buf) := by
  unfold fullUnanimous; infer_instance

/-- A MediaPipe landmark: normalized coordinates, modelled as rationals. -/
structure Landmark where
  x : ℚ
  y : ℚ
deriving DecidableEq

/-- The landmarks `detect_finger_states` reads from `hand_landmarks`. -/
structure HandLandmarks where
  thumb_tip : Landmark
  thumb_ip : Landmark
  thumb_mcp : Landmark
  index_tip : Landmark
  index_pip : Landmark
  middle_tip : Landmark
  middle_pip : Landmark
  ring_tip : Landmark
  ring_pip : Landmark
  pinky_tip : Landmark
  pinky_pip : Landmark
  wrist : Landmark
deriving DecidableEq

/-- The dictionary of five booleans returned by `detect_finger_states`. -/
structure RawStates where
  thumb : Bool
  index : Bool
  middle : Bool
  ring : Bool
  pinky : Bool
deriving DecidableEq

/-- Look up a finger's entry of a `RawStates` dictionary. -/
def RawStates.get (r : RawStates) : Finger → Bool
  | .thumb => r.thumb
  | .index => r.index
  | .middle => r.middle
  | .ring => r.ring
  | .pinky => r.pinky

/-- `hand_is_right = thumb_tip.x < thumb_mcp.x` from `detect_finger_states`. -/
def hand_is_right (h : HandLandmarks) : Bool :=
  decide (h.thumb_tip.x < h.thumb_mcp.x)

/-- The fixed vertical classification margin (`margin = 0.02`). -/
def margin : ℚ := 2 / 100

/-- `detect_finger_states(hand_landmarks)` from `src/gesture.py`. -/
def detect_finger_states (h : HandLandmarks) : RawStates :=
  let thumb_up :=
    if hand_is_right h then
      decide (h.thumb_tip.x < h.thumb_ip.x)
    else
      decide (h.thumb_tip.x > h.thumb_ip.x)
  { thumb := thumb_up
    index := decide (h.index_tip.y < h.index_pip.y - margin)
    middle := decide (h.middle_tip.y < h.middle_pip.y - margin)
    ring := decide (h.ring_tip.y < h.ring_pip.y - margin)
    pinky := decide (h.pinky_tip.y < h.pinky_pip.y - margin) }

/-- The mutable module-level state of `src/gesture.py` that the orchestrator
reads and writes: `prev_states` (one `Option Bool` per finger plus the
`"all_down"` entry), `gesture_buffer` (one debounce window per finger) and
the `esp32_connected` flag. -/
structure GState where
  prevThumb : Option Bool
  prevIndex : Option Bool
  prevMiddle : Option Bool
  prevRing : Option Bool
  prevPinky : Option Bool
  prevAllDown : Option Bool
  bufThumb : List Bool
  bufIndex : List Bool
  bufMiddle : List Bool
  bufRing : List Bool
  bufPinky : List Bool
  esp32_connected : Bool
deriving DecidableEq

/-- A finger's entry of `prev_states`. -/
def GState.prev (st : GState) : Finger → Option Bool
  | .thumb => st.prevThumb
  | .index => st.prevIndex
  | .middle => st.prevMiddle
  | .ring => st.prevRing
  | .pinky => st.prevPinky

/-- A finger's entry of `gesture_buffer`. -/
def GState.buf (st : GState) : Finger → List Bool
  | .thumb => st.bufThumb
  | .index => st.bufIndex
  | .middle => st.bufMiddle
  | .ring => st.bufRing
  | .pinky => st.bufPinky

/-- The module-level initial state: every entry of `prev_states` is `None`,
every debounce window is empty; the connection flag is a parameter (it is
`False` at import time and is set by `check_esp32_connection`). -/
def initState (connected : Bool) : GState :=
  { prevThumb := none, prevIndex := none, prevMiddle := none
    prevRing := none, prevPinky := none, prevAllDown := none
    bufThumb := [], bufIndex := [], bufMiddle := [], bufRing := [], bufPinky := []
    esp32_connected := connected }

/-- The endpoint name of a finger, as it appears in the dispatched endpoint
strings `"thumb/on"`, `"thumb/off"`, ... -/
def fingerName : Finger → String
  | .thumb => "thumb"
  | .index => "index"
  | .middle => "middle"
  | .ring => "ring"
  | .pinky => "pinky"

/-- Python truthiness of a `prev_states` entry: `None` and `False` are
falsy, `True` is truthy (used by `not any(stable_states.values())` and
`not prev_states.get("all_down", False)`). -/
def optTruthy : Option Bool → Bool
  | some true => true
  | _ => false

/-- One `if stable_states[f] != prev_states[f] and stable_states[f] is not None:
send_command(...)` block of `process_gestures`, returning the list of
endpoints dispatched by that block (empty or a singleton). -/
def fingerCmds (name : String) (stable prev : Option Bool) : List String :=
  if stable ≠ prev ∧ stable ≠ none then
    [if stable = some true then name ++ "/on" else name ++ "/off"]
  else []

/-- The body of `process_gestures` after `detect_finger_states`: debounce
each finger, compute `all_down`, dispatch edge-triggered commands, and
persist the new `prev_states`.  Returns the new module state together with
the list of endpoints passed to `send_command`, in program order. -/
def process_raw_gestures (st : GState) (current_states : RawStates) :
    GState × List String :=
  if st.esp32_connected then
    let pT := get_stable_gesture st.bufThumb st.prevThumb current_states.thumb
    let pI := get_stable_gesture st.bufIndex st.prevIndex current_states.index
    let pM := get_stable_gesture st.bufMiddle st.prevMiddle current_states.middle
    let pR := get_stable_gesture st.bufRing st.prevRing current_states.ring
    let pP := get_stable_gesture st.bufPinky st.prevPinky current_states.pinky
    let all_down := !(optTruthy pT.2 || optTruthy pI.2 || optTruthy pM.2 ||
      optTruthy pR.2 || optTruthy pP.2)
    let cmds :=
      fingerCmds "thumb" pT.2 st.prevThumb ++
      fingerCmds "index" pI.2 st.prevIndex ++
      fingerCmds "middle" pM.2 st.prevMiddle ++
      fingerCmds "ring" pR.2 st.prevRing ++
      fingerCmds "pinky" pP.2 st.prevPinky ++
      (if all_down && !(optTruthy st.prevAllDown) then ["all/off"] else [])
    ({ prevThumb := pT.2, prevIndex := pI.2, prevMiddle := pM.2
       prevRing := pR.2, prevPinky := pP.2, prevAllDown := some all_down
       bufThumb := pT.1, bufIndex := pI.1, bufMiddle := pM.1
       bufRing := pR.1, bufPinky := pP.1
       esp32_connected := st.esp32_connected }, cmds)
  else
    (st, [])

/-- `process_gestures(hand_landmarks)` from `src/gesture.py`: an early
return when `esp32_connected` is false, then classification followed by
the debounce/diff/dispatch body. -/
def process_gestures (st : GState) (hand_landmarks : HandLandmarks) :
    GState × List String :=
  process_raw_gestures st (detect_finger_states hand_landmarks)

/-- Run `process_raw_gestures` over a sequence of observation cycles,
concatenating the dispatched endpoints of every cycle. -/
def runGestures (st : GState) : List RawStates → GState × List String
  | [] => (st, [])
  | r :: rs =>
    let p := process_raw_gestures st r
    let q := runGestures p.1 rs
    (q.1, p.2 ++ q.2)

/-- `CONNECTION_CHECK_INTERVAL = 5.0`. -/
def CONNECTION_CHECK_INTERVAL : ℚ := 5

/-- The module-level connection-tracking state: `esp32_connected` and
`last_connection_check`. -/
structure ConnState where
  esp32_connected : Bool
  last_connection_check : ℚ
deriving DecidableEq

/-- The outcome of the `requests.get(f"{BASE_URL}/status", timeout=1.0)`
probe: either a response with some status code, or a raised exception
(timeout, connection error, ...) caught by the bare `except:`. -/
inductive ProbeOutcome
  | response (status : ℕ)
  | exception
deriving DecidableEq

/-- The log events emitted by `check_esp32_connection`. -/
inductive ConnLog
  | established
  | lost
deriving DecidableEq

/-- The result of one call to `check_esp32_connection`: the new module
state, the returned boolean, whether a network probe was actually issued,
and the emitted log events. -/
structure CheckResult where
  state : ConnState
  ret : Bool
  probed : Bool
  logs : List ConnLog
deriving DecidableEq

/-- `check_esp32_connection()` from `src/gesture.py`.  `current_time` is the
value of `time.time()` at the call and `probe` the outcome the network
would give if a probe were issued. -/
def check_esp32_connection (st : ConnState) (current_time : ℚ)
    (probe : ProbeOutcome) : CheckResult :=
  if current_time - st.last_connection_check < CONNECTION_CHECK_INTERVAL then
    { state := st, ret := st.esp32_connected, probed := false, logs := [] }
  else
    match probe with
    | .response status =>
      let conn := status = 200
      { state := { esp32_connected := conn, last_connection_check := current_time }
        ret := conn
        probed := true
        logs := if conn then [.established] else [] }
    | .exception =>
      { state := { esp32_connected := false, last_connection_check := current_time }
        ret := false
        probed := true
        logs := if st.esp32_connected then [.lost] else [] }

/-- `MAX_RETRIES = 2`. -/
def MAX_RETRIES : ℕ := 2

/-- The outcome of one `requests.get(url, timeout=REQUEST_TIMEOUT)` attempt
inside `send_command`'s `send` loop: a response with some status code, or
one of the three caught exception classes. -/
inductive AttemptOutcome
  | response (status : ℕ)
  | timeout
  | connectionError
  | otherError
deriving DecidableEq

/-- The log calls made by `send_command`'s `send` loop. -/
inductive SendLog
  | debugSent
  | warnTimeout
  | errorConn
  | errorOther
deriving DecidableEq

/-- The `for attempt in range(retries)` loop inside `send_command`'s `send`
closure.  `outcomes n` is the outcome of the `n`-th request attempt,
`attempt` the current loop index and `remaining` the number of loop
iterations left.  Returns the number of request attempts actually made and
the emitted log events, in order.  A 200 response returns from the loop; a
non-200 response falls through the `if` (no `raise_for_status`) and the
loop continues; a timeout logs a warning and continues; a connection error
or any other exception logs an error and breaks. -/
def sendLoop (outcomes : ℕ → AttemptOutcome) : ℕ → ℕ → ℕ × List SendLog
  | _, 0 => (0, [])
  | attempt, remaining + 1 =>
    match outcomes attempt with
    | .response status =>
      if status = 200 then (1, [.debugSent])
      else
        let rest := sendLoop outcomes (attempt + 1) remaining
        (rest.1 + 1, rest.2)
    | .timeout =>
      let rest := sendLoop outcomes (attempt + 1) remaining
      (rest.1 + 1, .warnTimeout :: rest.2)
    | .connectionError => (1, [.errorConn])
    | .otherError => (1, [.errorOther])

/-- The delivery routine of `send_command(endpoint, retries=MAX_RETRIES)`:
run the `send` loop for `retries` iterations starting at attempt 0. -/
def send_command_send (outcomes : ℕ → AttemptOutcome) (retries : ℕ) :
    ℕ × List SendLog :=
  sendLoop outcomes 0 retries

/-- A concrete right-hand landmark set used to instantiate theorems: thumb
tip left of both the MCP and IP joints, index tip well above its PIP joint,
the other tips at their PIP height. -/
def testHand : HandLandmarks :=
  { thumb_tip := ⟨0, 5/10⟩, thumb_ip := ⟨2/10, 5/10⟩, thumb_mcp := ⟨3/10, 6/10⟩
    index_tip := ⟨4/10, 1/10⟩, index_pip := ⟨4/10, 3/10⟩
    middle_tip := ⟨5/10, 3/10⟩, middle_pip := ⟨5/10, 3/10⟩
    ring_tip := ⟨6/10, 3/10⟩, ring_pip := ⟨6/10, 3/10⟩
    pinky_tip := ⟨7/10, 3/10⟩, pinky_pip := ⟨7/10, 3/10⟩
    wrist := ⟨5/10, 9/10⟩ }

/-- Raw readings with only the index finger up (the scenario of the spec's
end-to-end test). -/
def rawIndexOnly : RawStates :=
  { thumb := false, index := true, middle := false, ring := false, pinky := false }

/-- Raw readings with every finger down. -/
def rawAllFalse : RawStates :=
  { thumb := false, index := false, middle := false, ring := false, pinky := false }

/-! ## Helper lemmas about the debouncer -/

/-- `deque(maxlen=3).append` always leaves the appended value at the tail. -/
theorem dequeAppend3_eq_append (buf : List Bool) (b : Bool) :
    ∃ t, dequeAppend3 buf b = t ++ [b] := by
  unfold dequeAppend3
  by_cases h : 3 < (buf ++ [b]).length
  · have hb : (buf ++ [b]).length - 3 ≤ buf.length := by
      simp only [List.length_append, List.length_singleton]
      omega
    refine ⟨buf.drop ((buf ++ [b]).length - 3), ?_⟩
    show (if 3 < (buf ++ [b]).length then
        (buf ++ [b]).drop ((buf ++ [b]).length - 3) else buf ++ [b]) = _
    rw [if_pos h, List.drop_append_of_le_length hb]
  · refine ⟨buf, ?_⟩
    show (if 3 < (buf ++ [b]).length then
        (buf ++ [b]).drop ((buf ++ [b]).length - 3) else buf ++ [b]) = _
    rw [if_neg h]

/-- Characterization of `get_stable_gesture`: the buffer is always the
appended window, and the returned stable value is the window's last entry
when the window is full and unanimous, the previous state otherwise. -/
theorem get_stable_gesture_eq (buf : List Bool) (prev : Option Bool) (cur : Bool) :
    get_stable_gesture buf prev cur =
      (dequeAppend3 buf cur,
        if fullUnanimous (dequeAppend3 buf cur) then
          some ((dequeAppend3 buf cur).getLastD cur)
        else prev) := by
  simp only [get_stable_gesture]
  by_cases h3 : (dequeAppend3 buf cur).length = 3
  · by_cases hu : (((dequeAppend3 buf cur).all fun b => b) ||
        ((dequeAppend3 buf cur).all fun b => !b)) = true
    · have hf : fullUnanimous (dequeAppend3 buf cur) :=
        ⟨h3, by simpa only [Bool.or_eq_true] using hu⟩
      rw [if_pos h3, if_pos hu, if_pos hf]
    · have hnf : ¬ fullUnanimous (dequeAppend3 buf cur) := by
        simp only [Bool.or_eq_true] at hu
        exact fun hf => hu hf.2
      rw [if_pos h3, if_neg hu, if_neg hnf]
  · have hnf : ¬ fullUnanimous (dequeAppend3 buf cur) := fun hf => h3 hf.1
    rw [if_neg h3, if_neg hnf]

/-! ## Claim C1 -/

/-- Claim C1: for every finger buffer, previous stable state and raw
reading, `get_stable_gesture` returns a value different from the previous
stable state only when the updated debounce window holds exactly 3 entries
that all agree; a full all-true window yields `some true`, a full all-false
window yields `some false`, and any not-full or non-unanimous window
returns the previous stable state unchanged. -/
theorem debounce_stable_only_on_unanimous (buf : List Bool) (prev : Option Bool)
    (cur : Bool) :
    ((get_stable_gesture buf prev cur).2 ≠ prev →
      fullUnanimous (get_stable_gesture buf prev cur).1) ∧
    ((get_stable_gesture buf prev cur).1.length = 3 →
      ((get_stable_gesture buf prev cur).1.all fun b => b) = true →
      (get_stable_gesture buf prev cur).2 = some true) ∧
    ((get_stable_gesture buf prev cur).1.length = 3 →
      ((get_stable_gesture buf prev cur).1.all fun b => !b) = true →
      (get_stable_gesture buf prev cur).2 = some false) ∧
    (¬ fullUnanimous (get_stable_gesture buf prev cur).1 →
      (get_stable_gesture buf prev cur).2 = prev) := by
  obtain ⟨t, ht⟩ := dequeAppend3_eq_append buf cur
  rw [get_stable_gesture_eq]
  by_cases hfu : fullUnanimous (dequeAppend3 buf cur)
  · refine ⟨fun _ => hfu, ?_, ?_, fun h => absurd hfu h⟩
    · intro h3 hall
      simp only [if_pos hfu]
      rw [ht] at hall ⊢
      simp only [List.all_append, Bool.and_eq_true, List.all_cons,
        List.all_nil, Bool.and_true] at hall
      simp [hall.2]
    · intro h3 hall
      simp only [if_pos hfu]
      rw [ht] at hall ⊢
      simp only [List.all_append, Bool.and_eq_true, List.all_cons,
        List.all_nil, Bool.and_true] at hall
      have hc : cur = false := by
        cases cur
        · rfl
        · simpa using hall.2
      simp [hc]
  · refine ⟨?_, ?_, ?_, fun _ => by simp [if_neg hfu]⟩
    · intro hne
      exact absurd (by simp [if_neg hfu]) hne
    · intro h3 hall
      exact absurd ⟨h3, Or.inl hall⟩ hfu
    · intro h3 hall
      exact absurd ⟨h3, Or.inr hall⟩ hfu

/-- Witness for C1: a window completed with three `true`s stabilizes to
`some true`, three `false`s to `some false`, and a mixed window leaves the
previous state (`none`) unchanged. -/
theorem debounce_stable_only_on_unanimous_witness :
    (get_stable_gesture [true, true] none true).2 = some true ∧
    (get_stable_gesture [false, false] none false).2 = some false ∧
    (get_stable_gesture [true, false] none true).2 = none :=
  ⟨(debounce_stable_only_on_unanimous [true, true] none true).2.1
      (by decide) (by decide),
   (debounce_stable_only_on_unanimous [false, false] none false).2.2.1
      (by decide) (by decide),
   (debounce_stable_only_on_unanimous [true, false] none true).2.2.2
      (by decide)⟩

/-! ## Claim C9 -/

/-- Claim C9: `detect_finger_states` computes exactly the documented rules:
hand orientation is right iff the thumb tip's x is less than the thumb
MCP's x; the thumb is up iff tip x < IP x for a right hand and iff
tip x > IP x for a left hand; each other finger is up iff its tip's y is
less than its PIP joint's y minus the fixed margin 0.02.  (The function is
a pure Lean function of the landmark set, hence deterministic and
side-effect-free.) -/
theorem detect_finger_states_spec (h : HandLandmarks) :
    (hand_is_right h = true ↔ h.thumb_tip.x < h.thumb_mcp.x) ∧
    (hand_is_right h = true →
      ((detect_finger_states h).thumb = true ↔ h.thumb_tip.x < h.thumb_ip.x)) ∧
    (hand_is_right h = false →
      ((detect_finger_states h).thumb = true ↔ h.thumb_ip.x < h.thumb_tip.x)) ∧
    ((detect_finger_states h).index = true ↔
      h.index_tip.y < h.index_pip.y - margin) ∧
    ((detect_finger_states h).middle = true ↔
      h.middle_tip.y < h.middle_pip.y - margin) ∧
    ((detect_finger_states h).ring = true ↔
      h.ring_tip.y < h.ring_pip.y - margin) ∧
    ((detect_finger_states h).pinky = true ↔
      h.pinky_tip.y < h.pinky_pip.y - margin) := by
  refine ⟨by simp [hand_is_right], ?_, ?_, by simp [detect_finger_states],
    by simp [detect_finger_states], by simp [detect_finger_states],
    by simp [detect_finger_states]⟩
  · intro hr
    simp [detect_finger_states, hr]
  · intro hr
    simp [detect_finger_states, hr]

/-- Witness for C9: on the concrete right hand `testHand`, the hand is
classified as right, the thumb and index are up, and the middle finger
(tip at PIP height, within the margin) is down. -/
theorem detect_finger_states_spec_witness :
    hand_is_right testHand = true ∧
    (detect_finger_states testHand).thumb = true ∧
    (detect_finger_states testHand).index = true ∧
    (detect_finger_states testHand).middle = false := by
  have hr : hand_is_right testHand = true :=
    (detect_finger_states_spec testHand).1.mpr (by norm_num [testHand])
  refine ⟨hr, ?_, ?_, ?_⟩
  · exact ((detect_finger_states_spec testHand).2.1 hr).mpr (by norm_num [testHand])
  · exact (detect_finger_states_spec testHand).2.2.2.1.mpr
      (by norm_num [testHand, margin])
  · have hm := (detect_finger_states_spec testHand).2.2.2.2.1
    by_contra hc
    rw [Bool.not_eq_false] at hc
    have := hm.mp hc
    norm_num [testHand, margin] at this

/-! ## Claim C10 -/

/-- Claim C10: while the connection flag is false, `process_gestures`
dispatches no command and leaves the whole module state — every debounce
window and the previous-state record — exactly unchanged. -/
theorem process_gestures_disconnected_noop (st : GState) (h : HandLandmarks)
    (hconn : st.esp32_connected = false) :
    process_gestures st h = (st, []) := by
  simp [process_gestures, process_raw_gestures, hconn]

/-- Witness for C10: a disconnected initial state is left untouched by a
cycle on the concrete hand `testHand`. -/
theorem process_gestures_disconnected_noop_witness :
    process_gestures (initState false) testHand = (initState false, []) :=
  process_gestures_disconnected_noop (initState false) testHand rfl

/-! ## Claim C5 -/

/-- Against a transport that always times out, every loop iteration makes
one attempt and logs one timeout warning. -/
theorem sendLoop_all_timeout (outcomes : ℕ → AttemptOutcome)
    (h : ∀ n, outcomes n = .timeout) (k a : ℕ) :
    sendLoop outcomes a k = (k, List.replicate k .warnTimeout) := by
  induction k generalizing a with
  | zero => rfl
  | succ n ih =>
    rw [sendLoop, h a]
    simp [ih (a + 1), List.replicate_succ]

/-- Claim C5: when every attempt raises a timeout, the delivery routine of
`send_command` makes exactly `MAX_RETRIES` attempts — which is 2 — and then
gives up, never making a third attempt. -/
theorem send_command_timeout_retry_bound (outcomes : ℕ → AttemptOutcome)
    (h : ∀ n, outcomes n = .timeout) :
    (send_command_send outcomes MAX_RETRIES).1 = MAX_RETRIES ∧ MAX_RETRIES = 2 := by
  rw [send_command_send, sendLoop_all_timeout outcomes h]
  exact ⟨rfl, rfl⟩

/-- Witness for C5: the always-timeout transport is attempted exactly
twice. -/
theorem send_command_timeout_retry_bound_witness :
    (send_command_send (fun _ => .timeout) MAX_RETRIES).1 = 2 :=
  (send_command_timeout_retry_bound (fun _ => .timeout) (fun _ => rfl)).1.trans
    (send_command_timeout_retry_bound (fun _ => .timeout) (fun _ => rfl)).2

/-! ## Claim C6 -/

/-- Counterexample to C6: a transport that always answers with status 500
(received response, not 2xx) is attempted twice — the loop does not abort
after the first attempt — and no error-level log is emitted at all
(the non-200 response falls through the `if` with no `raise_for_status`
and is simply retried). -/
theorem send_command_non200_counterexample :
    send_command_send (fun _ => .response 500) MAX_RETRIES = (2, []) ∧
    ¬ ((send_command_send (fun _ => .response 500) MAX_RETRIES).1 = 1 ∧
      SendLog.errorOther ∈ (send_command_send (fun _ => .response 500) MAX_RETRIES).2) := by
  decide

/-- Claim C6 (amended): an attempt that raises an exception that is neither
a timeout nor a connection error aborts the loop immediately with an
error-level log and no further attempt; a received response with non-2xx
status, however, does not abort: it is not logged at error level and the
loop proceeds to the next attempt, so two non-200 responses consume both
attempts with no log. -/
theorem send_command_abort_on_other_error (outcomes : ℕ → AttemptOutcome) :
    (outcomes 0 = .otherError →
      send_command_send outcomes MAX_RETRIES = (1, [.errorOther])) ∧
    (∀ s, outcomes 0 = .response s → s ≠ 200 →
      (send_command_send outcomes MAX_RETRIES).1 = 2) ∧
    (∀ s s', outcomes 0 = .response s → s ≠ 200 →
      outcomes 1 = .response s' → s' ≠ 200 →
      send_command_send outcomes MAX_RETRIES = (2, [])) := by
  refine ⟨?_, ?_, ?_⟩
  · intro h0
    rw [send_command_send]
    show sendLoop outcomes 0 2 = _
    rw [sendLoop, h0]
  · intro s h0 hs
    rw [send_command_send]
    show (sendLoop outcomes 0 2).1 = 2
    rw [sendLoop, h0]
    simp only [hs, if_neg, ite_false]
    rw [sendLoop]
    cases houtcome : outcomes 1 <;> simp [houtcome, sendLoop]
    rename_i s'
    by_cases hs' : s' = 200 <;> simp [hs', sendLoop]
  · intro s s' h0 hs h1 hs'
    rw [send_command_send]
    show sendLoop outcomes 0 2 = _
    rw [sendLoop, h0]
    simp only [hs, ite_false, if_neg]
    rw [sendLoop, h1]
    simp [hs', sendLoop]

/-- Witness for C6 (amended): an unclassified exception on the first
attempt stops the loop at one attempt with one error log, and two 500
responses consume both attempts with no log. -/
theorem send_command_abort_on_other_error_witness :
    send_command_send (fun _ => .otherError) MAX_RETRIES = (1, [.errorOther]) ∧
    send_command_send (fun _ => .response 500) MAX_RETRIES = (2, []) :=
  ⟨(send_command_abort_on_other_error (fun _ => .otherError)).1 rfl,
   (send_command_abort_on_other_error (fun _ => .response 500)).2.2 500 500 rfl
      (by decide) rfl (by decide)⟩

/-! ## Claim C7 -/

/-- Claim C7: a call to `check_esp32_connection` made less than
`CONNECTION_CHECK_INTERVAL` (5.0 s) after the last probe issues no network
probe and returns the cached reachability flag with the state unchanged;
a real probe is issued exactly when at least the interval has elapsed. -/
theorem connection_check_rate_limited (st : ConnState) (t : ℚ) (p : ProbeOutcome) :
    (t - st.last_connection_check < CONNECTION_CHECK_INTERVAL →
      check_esp32_connection st t p =
        { state := st, ret := st.esp32_connected, probed := false, logs := [] }) ∧
    ((check_esp32_connection st t p).probed = true ↔
      CONNECTION_CHECK_INTERVAL ≤ t - st.last_connection_check) := by
  by_cases h : t - st.last_connection_check < CONNECTION_CHECK_INTERVAL
  · refine ⟨fun _ => by simp [check_esp32_connection, h], ?_⟩
    simp only [check_esp32_connection, if_pos h]
    simpa using not_le.mpr h
  · refine ⟨fun hlt => absurd hlt h, ?_⟩
    cases p <;> simp [check_esp32_connection, h, not_lt.mp h]

/-- Witness for C7: a probe at time 3 after a probe at time 0 (cached flag
`true`) is rate-limited: nothing is probed and the cached flag is returned,
even though the network would have raised an exception. -/
theorem connection_check_rate_limited_witness :
    check_esp32_connection ⟨true, 0⟩ 3 .exception =
      { state := ⟨true, 0⟩, ret := true, probed := false, logs := [] } :=
  (connection_check_rate_limited ⟨true, 0⟩ 3 .exception).1 (by norm_num
    [CONNECTION_CHECK_INTERVAL])

/-! ## Claim C8 -/

/-- Counterexample to C8: at a probe where the flag was already `true` and
the probe succeeds with status 200 — flag unchanged — an "established"
event is logged anyway; and at a probe where the flag drops from `true` to
`false` because of a non-200 response, no "lost" event is logged. -/
theorem connection_log_counterexample :
    (check_esp32_connection ⟨true, 0⟩ 10 (.response 200)).state.esp32_connected
      = true ∧
    (check_esp32_connection ⟨true, 0⟩ 10 (.response 200)).logs
      = [.established] ∧
    (check_esp32_connection ⟨true, 0⟩ 10 (.response 500)).state.esp32_connected
      = false ∧
    (check_esp32_connection ⟨true, 0⟩ 10 (.response 500)).logs = [] := by
  norm_num [check_esp32_connection, CONNECTION_CHECK_INTERVAL]

/-- Claim C8 (amended): on an executed probe, an "established" event is
logged iff the probe returned a 200 response — regardless of the previous
flag value — and a "lost" event is logged iff the probe raised an
exception while the flag was previously `true`; a `true → false`
transition caused by a received non-200 response logs nothing. -/
theorem connection_log_events (st : ConnState) (t : ℚ) (p : ProbeOutcome)
    (hp : CONNECTION_CHECK_INTERVAL ≤ t - st.last_connection_check) :
    (ConnLog.established ∈ (check_esp32_connection st t p).logs ↔
      p = .response 200) ∧
    (ConnLog.lost ∈ (check_esp32_connection st t p).logs ↔
      p = .exception ∧ st.esp32_connected = true) := by
  have h : ¬ t - st.last_connection_check < CONNECTION_CHECK_INTERVAL :=
    not_lt.mpr hp
  cases p with
  | response s =>
    by_cases hs : s = 200 <;>
      simp [check_esp32_connection, h, hs]
  | exception =>
    cases hc : st.esp32_connected <;>
      simp [check_esp32_connection, h, hc]

/-- Witness for C8 (amended): with the flag previously `true`, an
exception probe at time 10 logs a "lost" event. -/
theorem connection_log_events_witness :
    ConnLog.lost ∈ (check_esp32_connection ⟨true, 0⟩ 10 .exception).logs :=
  ((connection_log_events ⟨true, 0⟩ 10 .exception
      (by norm_num [CONNECTION_CHECK_INTERVAL])).2).mpr ⟨rfl, rfl⟩

/-! ## Claim C4 -/

/-- Membership in one per-finger dispatch block of `process_gestures`. -/
theorem mem_fingerCmds {s name : String} {stable pv : Option Bool} :
    s ∈ fingerCmds name stable pv ↔
      (stable ≠ pv ∧ stable ≠ none) ∧
      s = (if stable = some true then name ++ "/on" else name ++ "/off") := by
  unfold fingerCmds
  split <;> simp_all

/-- Membership in the conditional singleton `["all/off"]` block. -/
theorem mem_ite_singleton {c : Prop} [Decidable c] {s t : String} :
    s ∈ (if c then [t] else []) ↔ c ∧ s = t := by
  split <;> simp_all

/-- Case split on `P` collapses the two dispatch branches. -/
theorem and_or_and_not_iff {C P : Prop} [Decidable P] :
    (C ∧ P ∨ C ∧ ¬P) ↔ C := by
  by_cases hP : P <;> simp [hP]

/-- Claim C4: on a connected cycle, the per-finger command (on or off) for a
finger is dispatched iff the newly computed stable state differs from the
previously recorded one and is determined (not `None`); moreover the new
stable state is recorded as the finger's previous state for the next cycle,
so a cycle that computes the same stable state again dispatches nothing —
dispatch is edge-triggered, never level-triggered. -/
theorem edge_triggered_dispatch (st : GState) (r : RawStates) (f : Finger)
    (hc : st.esp32_connected = true) :
    ((fingerName f ++ "/on" ∈ (process_raw_gestures st r).2 ∨
      fingerName f ++ "/off" ∈ (process_raw_gestures st r).2) ↔
      ((get_stable_gesture (st.buf f) (st.prev f) (r.get f)).2 ≠ st.prev f ∧
       (get_stable_gesture (st.buf f) (st.prev f) (r.get f)).2 ≠ none)) ∧
    ((process_raw_gestures st r).1.prev f =
      (get_stable_gesture (st.buf f) (st.prev f) (r.get f)).2) := by
  cases f <;>
    (constructor
     · simp only [process_raw_gestures, hc, if_true, GState.prev, GState.buf,
         RawStates.get, fingerName, List.mem_append, mem_fingerCmds,
         mem_ite_singleton, eq_ite_iff]
       simp
       exact and_or_and_not_iff
     · simp only [process_raw_gestures, hc, if_true, GState.prev, GState.buf,
         RawStates.get])

/-- Witness for C4: with the index window at `[true, true]` and all previous
states unknown, a cycle with the index raised dispatches `index/on` (the
stable state `some true` differs from `none`), and records `some true` as
the index's previous state; the immediately following identical cycle
dispatches no index command. -/
theorem edge_triggered_dispatch_witness :
    ((fingerName .index ++ "/on" ∈ (process_raw_gestures
        { initState true with bufIndex := [true, true] } rawIndexOnly).2 ∨
      fingerName .index ++ "/off" ∈ (process_raw_gestures
        { initState true with bufIndex := [true, true] } rawIndexOnly).2) ∧
      (process_raw_gestures { initState true with bufIndex := [true, true] }
        rawIndexOnly).1.prev .index = some true) ∧
    ¬ (fingerName .index ++ "/on" ∈ (process_raw_gestures
        (process_raw_gestures { initState true with bufIndex := [true, true] }
          rawIndexOnly).1 rawIndexOnly).2 ∨
       fingerName .index ++ "/off" ∈ (process_raw_gestures
        (process_raw_gestures { initState true with bufIndex := [true, true] }
          rawIndexOnly).1 rawIndexOnly).2) := by
  have h := edge_triggered_dispatch
    { initState true with bufIndex := [true, true] } rawIndexOnly .index rfl
  have h2 := edge_triggered_dispatch
    (process_raw_gestures { initState true with bufIndex := [true, true] }
      rawIndexOnly).1 rawIndexOnly .index rfl
  refine ⟨⟨h.1.mpr (by decide), ?_⟩, ?_⟩
  · rw [h.2]
    decide
  · rw [h2.1]
    decide

/-! ## Claim C3 -/

/-- Counterexample to C3: from the initial connected state, three cycles of
"index up, all others down" dispatch six commands, not one: `thumb/off` is
among them, and the computed `all_down` value after the first cycle is
`true`, not `false` (all five stable states are still unknown, and unknown
is falsy for `any`). -/
theorem three_cycle_index_counterexample :
    ((runGestures (initState true)
        [rawIndexOnly, rawIndexOnly, rawIndexOnly]).2).length = 6 ∧
    "thumb/off" ∈ (runGestures (initState true)
        [rawIndexOnly, rawIndexOnly, rawIndexOnly]).2 ∧
    (runGestures (initState true) [rawIndexOnly]).1.prevAllDown = some true := by
  decide

/-- Claim C3 (amended): from the initial connected state, three cycles of
"index up, all others down" dispatch exactly six commands — `all/off` on the
first cycle (all stable states still unknown count as all-down) and, on the
third cycle, `index/on` together with `thumb/off`, `middle/off`, `ring/off`
and `pinky/off` (each finger's first determined state is an edge from
unknown); the computed `all_down` value is `true` on the first two cycles
and `false` on the third. -/
theorem three_cycle_index_amended :
    (runGestures (initState true) [rawIndexOnly, rawIndexOnly, rawIndexOnly]).2 =
      ["all/off", "thumb/off", "index/on", "middle/off", "ring/off",
        "pinky/off"] ∧
    (runGestures (initState true) [rawIndexOnly]).1.prevAllDown = some true ∧
    (runGestures (initState true)
        [rawIndexOnly, rawIndexOnly]).1.prevAllDown = some true ∧
    (runGestures (initState true)
        [rawIndexOnly, rawIndexOnly, rawIndexOnly]).1.prevAllDown = some false := by
  decide

/-! ## Claim C2 -/

/-- A disconnected cycle is a no-op (helper shared by the run lemmas). -/
theorem process_raw_disconnected (st : GState) (r : RawStates)
    (hc : st.esp32_connected = false) :
    process_raw_gestures st r = (st, []) := by
  simp [process_raw_gestures, hc]

/-- On a connected cycle the new debounce window of a finger is the one
produced by `get_stable_gesture`. -/
theorem process_buf_eq (st : GState) (r : RawStates) (f : Finger)
    (hc : st.esp32_connected = true) :
    (process_raw_gestures st r).1.buf f =
      (get_stable_gesture (st.buf f) (st.prev f) (r.get f)).1 := by
  cases f <;>
    simp only [process_raw_gestures, hc, if_true, GState.buf, GState.prev,
      RawStates.get]

/-- On a connected cycle the recorded previous state of a finger becomes the
stable value produced by `get_stable_gesture`. -/
theorem process_prev_eq (st : GState) (r : RawStates) (f : Finger)
    (hc : st.esp32_connected = true) :
    (process_raw_gestures st r).1.prev f =
      (get_stable_gesture (st.buf f) (st.prev f) (r.get f)).2 := by
  cases f <;>
    simp only [process_raw_gestures, hc, if_true, GState.buf, GState.prev,
      RawStates.get]

/-- A finger's on/off command is dispatched on a connected cycle iff the
stable value changed and is determined. -/
theorem process_cmds_iff (st : GState) (r : RawStates) (f : Finger)
    (hc : st.esp32_connected = true) :
    (fingerName f ++ "/on" ∈ (process_raw_gestures st r).2 ∨
     fingerName f ++ "/off" ∈ (process_raw_gestures st r).2) ↔
    ((get_stable_gesture (st.buf f) (st.prev f) (r.get f)).2 ≠ st.prev f ∧
     (get_stable_gesture (st.buf f) (st.prev f) (r.get f)).2 ≠ none) := by
  cases f <;>
    (simp only [process_raw_gestures, hc, if_true, GState.prev, GState.buf,
       RawStates.get, fingerName, List.mem_append, mem_fingerCmds,
       mem_ite_singleton, eq_ite_iff]
     simp
     exact and_or_and_not_iff)

/-- A determined stable value comes from a full unanimous window or was
already determined before the call. -/
theorem stable_ne_none_cases (buf : List Bool) (prev : Option Bool) (cur : Bool)
    (h : (get_stable_gesture buf prev cur).2 ≠ none) :
    fullUnanimous (get_stable_gesture buf prev cur).1 ∨ prev ≠ none := by
  rw [get_stable_gesture_eq] at h ⊢
  by_cases hfu : fullUnanimous (dequeAppend3 buf cur)
  · exact Or.inl hfu
  · right
    simpa [hfu] using h

/-- A dispatched finger command means the finger was already determined
before the cycle or its window just became full and unanimous. -/
theorem cmd_in_step_conclusion (st : GState) (r : RawStates) (f : Finger)
    (hc : st.esp32_connected = true)
    (h : fingerName f ++ "/on" ∈ (process_raw_gestures st r).2 ∨
         fingerName f ++ "/off" ∈ (process_raw_gestures st r).2) :
    st.prev f ≠ none ∨ fullUnanimous ((process_raw_gestures st r).1.buf f) := by
  have hs := (process_cmds_iff st r f hc).mp h
  rcases stable_ne_none_cases (st.buf f) (st.prev f) (r.get f) hs.2 with hfu | hp
  · right
    rw [process_buf_eq st r f hc]
    exact hfu
  · exact Or.inl hp

/-- A determined recorded state after a cycle was determined before it or
the window just became full and unanimous. -/
theorem prev_ne_none_conclusion (st : GState) (r : RawStates) (f : Finger)
    (hc : st.esp32_connected = true)
    (h : (process_raw_gestures st r).1.prev f ≠ none) :
    st.prev f ≠ none ∨ fullUnanimous ((process_raw_gestures st r).1.buf f) := by
  rw [process_prev_eq st r f hc] at h
  rcases stable_ne_none_cases (st.buf f) (st.prev f) (r.get f) h with hfu | hp
  · right
    rw [process_buf_eq st r f hc]
    exact hfu
  · exact Or.inl hp

/-- Run invariant: a finger command in the output of a run means the finger
was determined at the start, or its window was full and unanimous after
some nonempty prefix of the run. -/
theorem run_cmd_stable_aux (f : Finger) (inputs : List RawStates) :
    ∀ st : GState,
      (fingerName f ++ "/on" ∈ (runGestures st inputs).2 ∨
       fingerName f ++ "/off" ∈ (runGestures st inputs).2) →
      st.prev f ≠ none ∨
      ∃ k, 0 < k ∧ k ≤ inputs.length ∧
        fullUnanimous ((runGestures st (inputs.take k)).1.buf f) := by
  induction inputs with
  | nil =>
    intro st h
    simp [runGestures] at h
  | cons r rs ih =>
    intro st h
    by_cases hc : st.esp32_connected = true
    · simp only [runGestures, List.mem_append] at h
      have hsplit : (fingerName f ++ "/on" ∈ (process_raw_gestures st r).2 ∨
          fingerName f ++ "/off" ∈ (process_raw_gestures st r).2) ∨
          (fingerName f ++ "/on" ∈
              (runGestures (process_raw_gestures st r).1 rs).2 ∨
            fingerName f ++ "/off" ∈
              (runGestures (process_raw_gestures st r).1 rs).2) := by
        tauto
      rcases hsplit with hstep | hrest
      · rcases cmd_in_step_conclusion st r f hc hstep with hp | hfu
        · exact Or.inl hp
        · refine Or.inr ⟨1, one_pos, by simp, ?_⟩
          simpa only [List.take_succ_cons, List.take_zero, runGestures] using hfu
      · rcases ih (process_raw_gestures st r).1 hrest with hp | ⟨k, hk0, hkle, hfu⟩
        · rcases prev_ne_none_conclusion st r f hc hp with hp2 | hfu
          · exact Or.inl hp2
          · refine Or.inr ⟨1, one_pos, by simp, ?_⟩
            simpa only [List.take_succ_cons, List.take_zero, runGestures] using hfu
        · refine Or.inr ⟨k + 1, Nat.succ_pos k, by simpa using hkle, ?_⟩
          simpa only [List.take_succ_cons, runGestures] using hfu
    · have hcf : st.esp32_connected = false := by simpa using hc
      have hstep := process_raw_disconnected st r hcf
      simp only [runGestures, hstep, List.nil_append] at h
      rcases ih st h with hp | ⟨k, hk0, hkle, hfu⟩
      · exact Or.inl hp
      · refine Or.inr ⟨k + 1, Nat.succ_pos k, by simpa using hkle, ?_⟩
        simpa only [List.take_succ_cons, runGestures, hstep] using hfu

/-- Counterexample to C2: from the connected initial state, the very first
observation cycle — when every debounce window holds a single entry and no
finger has ever had a full window, unanimous or not — already dispatches
the `all/off` command: all stable states are still unknown, unknown is
falsy for `any`, so `all_down` is truthy while the recorded `all_down` is
`None`, whose negation is also truthy. -/
theorem first_cycle_command_counterexample :
    (process_raw_gestures (initState true) rawAllFalse).2 = ["all/off"] ∧
    ((process_raw_gestures (initState true) rawAllFalse).1.bufThumb).length = 1 ∧
    ((process_raw_gestures (initState true) rawAllFalse).1.bufIndex).length = 1 ∧
    ((process_raw_gestures (initState true) rawAllFalse).1.bufMiddle).length = 1 ∧
    ((process_raw_gestures (initState true) rawAllFalse).1.bufRing).length = 1 ∧
    ((process_raw_gestures (initState true) rawAllFalse).1.bufPinky).length = 1 := by
  decide

/-- Claim C2 (amended): starting from the initial state, a per-finger
command for a finger is dispatched only after that finger's own debounce
window has been full (3 entries) and unanimous after some nonempty prefix
of the cycles; the `all off` command is exempt from this guarantee and is
dispatched already on the first cycle, because still-unknown stable states
count as "down". -/
theorem finger_command_requires_stable_window (inputs : List RawStates)
    (f : Finger)
    (h : fingerName f ++ "/on" ∈ (runGestures (initState true) inputs).2 ∨
         fingerName f ++ "/off" ∈ (runGestures (initState true) inputs).2) :
    ∃ k, 0 < k ∧ k ≤ inputs.length ∧
      fullUnanimous ((runGestures (initState true) (inputs.take k)).1.buf f) := by
  rcases run_cmd_stable_aux f inputs (initState true) h with hp | hex
  · exact absurd (by cases f <;> rfl) hp
  · exact hex

/-- Witness for C2 (amended): in the three-cycle index-only run the
dispatched `index/on` is indeed preceded by a full unanimous index
window. -/
theorem finger_command_requires_stable_window_witness :
    ∃ k, 0 < k ∧
      k ≤ ([rawIndexOnly, rawIndexOnly, rawIndexOnly] : List RawStates).length ∧
      fullUnanimous ((runGestures (initState true)
        ([rawIndexOnly, rawIndexOnly, rawIndexOnly].take k)).1.buf .index) :=
  finger_command_requires_stable_window
    [rawIndexOnly, rawIndexOnly, rawIndexOnly] .index (Or.inl (by decide))
